import Mathlib

/-!
Verification of `src/wrapper.h` of collectd-rust-plugin.

The source is a single conditional-include header:

  #ifdef COLLECTD_PATH
      #include <liboconfig/oconfig.h>
      #include <daemon/plugin.h>
      #include <daemon/utils_cache.h>
  #elif COLLECTD_54
      #include <collectd/core/plugin.h>
      #include <collectd/core/utils_cache.h>
  #else
      #include <collectd/liboconfig/oconfig.h>
      #include <collectd/core/daemon/plugin.h>
      #include <collectd/core/daemon/utils_cache.h>
  #endif

We shallowly embed the C preprocessor's evaluation of this chain.  A flag
environment maps a flag name to `some v` when the flag is defined (with the
numeric value `v` it has inside `#if`/`#elif` arithmetic) and to `none` when
it is undefined.  `#ifdef` tests only definedness; inside an `#elif`
expression an undefined identifier evaluates to 0, so the `#elif` guard is
"value is nonzero".  The result of evaluating the chain is the list of
bracketed paths textually included, in order.
-/

/-- A preprocessor flag environment: `some v` when the flag is defined with
value `v` as seen by conditional arithmetic, `none` when it is undefined. -/
def FlagEnv : Type := String → Option Nat

/-- Definedness test, as performed by `#ifdef NAME`. -/
def isDefined (env : FlagEnv) (name : String) : Bool :=
  (env name).isSome

/-- Value of a flag inside an `#if`/`#elif` arithmetic expression: an
undefined identifier evaluates to 0. -/
def flagValue (env : FlagEnv) (name : String) : Nat :=
  (env name).getD 0

/-- The three branches of the conditional chain in `wrapper.h`. -/
inductive Branch : Type
  | localPath
  | version54
  | packaged
deriving DecidableEq

/-- Branch selection of the chain
`#ifdef COLLECTD_PATH` / `#elif COLLECTD_54` / `#else`. -/
def selectBranch (env : FlagEnv) : Branch :=
  if isDefined env ("COLLECTD_PATH") then Branch.localPath
  else if flagValue env ("COLLECTD_54") ≠ 0 then Branch.version54
  else Branch.packaged

/-- Include set of the `#ifdef COLLECTD_PATH` branch (lines 2-4). -/
def localIncludes : List String :=
  ["liboconfig/oconfig.h", "daemon/plugin.h", "daemon/utils_cache.h"]

/-- Include set of the `#elif COLLECTD_54` branch (lines 6-7). -/
def v54Includes : List String :=
  ["collectd/core/plugin.h", "collectd/core/utils_cache.h"]

/-- Include set of the `#else` branch (lines 9-11). -/
def packagedIncludes : List String :=
  ["collectd/liboconfig/oconfig.h", "collectd/core/daemon/plugin.h",
   "collectd/core/daemon/utils_cache.h"]

/-- The include directives emitted by each branch of `wrapper.h`. -/
def branchIncludes : Branch → List String
  | Branch.localPath => localIncludes
  | Branch.version54 => v54Includes
  | Branch.packaged => packagedIncludes

/-- The whole header: the include set resolved for a flag environment. -/
def resolveIncludes (env : FlagEnv) : List String :=
  branchIncludes (selectBranch env)

/-- Boolean suffix test on strings, via the underlying character lists. -/
def endsWithStr (s suf : String) : Bool :=
  s.data.drop (s.data.length - suf.data.length) == suf.data

/-- Boolean initial-segment test on strings, via the character lists. -/
def startsWithStr (s p : String) : Bool :=
  s.data.take p.data.length == p.data

/-- A flag environment defining only the two recognized flags. -/
def envOf (pathVal c54Val : Option Nat) : FlagEnv :=
  fun name =>
    if name = "COLLECTD_PATH" then pathVal
    else if name = "COLLECTD_54" then c54Val
    else none

/-- Environment with neither recognized flag defined. -/
def envPlain : FlagEnv := envOf none none

/-- Environment with neither recognized flag defined, but with an
unrelated flag defined. -/
def envWithOther : FlagEnv :=
  fun name => if name = "SOME_OTHER_FLAG" then some 7 else envPlain name

/-- Environment with only `COLLECTD_54` defined (to 1). -/
def envV54Only : FlagEnv := envOf none (some 1)

/-- C1 (counterexample): the claim says every configuration resolves to
include directives for three headers, among them an option-parsing
(`oconfig.h`) header.  In the configuration where `COLLECTD_PATH` is
undefined and `COLLECTD_54` is 1, the header emits only two include
directives and none of them is an `oconfig.h` header. -/
theorem three_headers_counterexample :
    (resolveIncludes envV54Only).length = 2 ∧
    ((resolveIncludes envV54Only).any fun p => endsWithStr p ("oconfig.h")) = false := by
  decide

/-- C1 (amended): the local-path and default packaged branches each emit
exactly three include directives, one for each of the option-parsing,
plugin-registration and metrics-cache headers; the version-54 branch emits
only two, for the plugin-registration and metrics-cache headers, and omits
the option-parsing header. -/
theorem three_headers_amended :
    ((branchIncludes Branch.localPath).length = 3 ∧
      ((branchIncludes Branch.localPath).any fun p => endsWithStr p ("oconfig.h")) = true ∧
      ((branchIncludes Branch.localPath).any fun p => endsWithStr p ("plugin.h")) = true ∧
      ((branchIncludes Branch.localPath).any fun p => endsWithStr p ("utils_cache.h")) = true) ∧
    ((branchIncludes Branch.packaged).length = 3 ∧
      ((branchIncludes Branch.packaged).any fun p => endsWithStr p ("oconfig.h")) = true ∧
      ((branchIncludes Branch.packaged).any fun p => endsWithStr p ("plugin.h")) = true ∧
      ((branchIncludes Branch.packaged).any fun p => endsWithStr p ("utils_cache.h")) = true) ∧
    ((branchIncludes Branch.version54).length = 2 ∧
      ((branchIncludes Branch.version54).any fun p => endsWithStr p ("oconfig.h")) = false ∧
      ((branchIncludes Branch.version54).any fun p => endsWithStr p ("plugin.h")) = true ∧
      ((branchIncludes Branch.version54).any fun p => endsWithStr p ("utils_cache.h")) = true) := by
  decide

/-- C2: for every flag environment exactly one branch is active: the three
branches are collectively exhaustive, and each one is active precisely on
its own region of the flag space, so no two can be active at once. -/
theorem branch_selection_mece (env : FlagEnv) :
    (selectBranch env = Branch.localPath ∨ selectBranch env = Branch.version54 ∨
      selectBranch env = Branch.packaged) ∧
    (selectBranch env = Branch.localPath ↔ isDefined env ("COLLECTD_PATH") = true) ∧
    (selectBranch env = Branch.version54 ↔
      isDefined env ("COLLECTD_PATH") = false ∧ flagValue env ("COLLECTD_54") ≠ 0) ∧
    (selectBranch env = Branch.packaged ↔
      isDefined env ("COLLECTD_PATH") = false ∧ flagValue env ("COLLECTD_54") = 0) := by
  unfold selectBranch
  rcases h1 : isDefined env ("COLLECTD_PATH") <;>
    rcases h2 : decide (flagValue env ("COLLECTD_54") = 0) <;>
      simp_all

/-- C3: when `COLLECTD_PATH` is defined and `COLLECTD_54` is nonzero at the
same time, the path flag takes precedence: the local-path branch is
selected and the local daemon source tree layout is emitted. -/
theorem path_flag_precedence (env : FlagEnv)
    (h1 : isDefined env ("COLLECTD_PATH") = true)
    (h2 : flagValue env ("COLLECTD_54") ≠ 0) :
    selectBranch env = Branch.localPath ∧ resolveIncludes env = localIncludes := by
  unfold resolveIncludes selectBranch
  simp [h1, branchIncludes]

/-- Witness for C3 at the environment defining both flags. -/
theorem path_flag_precedence_witness :
    selectBranch (envOf (some 5) (some 1)) = Branch.localPath ∧
    resolveIncludes (envOf (some 5) (some 1)) = localIncludes :=
  path_flag_precedence (envOf (some 5) (some 1)) (by decide) (by decide)

/-- C4: whenever `COLLECTD_PATH` is defined, the resolved include set is
exactly the three local daemon source tree paths, and nothing else. -/
theorem local_layout_exact (env : FlagEnv)
    (h : isDefined env ("COLLECTD_PATH") = true) :
    resolveIncludes env =
      ["liboconfig/oconfig.h", "daemon/plugin.h", "daemon/utils_cache.h"] := by
  unfold resolveIncludes selectBranch
  simp [h, branchIncludes, localIncludes]

/-- Witness for C4 at an environment defining `COLLECTD_PATH` only. -/
theorem local_layout_exact_witness :
    resolveIncludes (envOf (some 0) none) =
      ["liboconfig/oconfig.h", "daemon/plugin.h", "daemon/utils_cache.h"] :=
  local_layout_exact (envOf (some 0) none) (by decide)

/-- C5: when neither `COLLECTD_PATH` nor `COLLECTD_54` is defined, the
resolved include set is exactly the packaged-installation layout. -/
theorem default_layout_exact (env : FlagEnv)
    (h1 : env ("COLLECTD_PATH") = none) (h2 : env ("COLLECTD_54") = none) :
    resolveIncludes env =
      ["collectd/liboconfig/oconfig.h", "collectd/core/daemon/plugin.h",
       "collectd/core/daemon/utils_cache.h"] := by
  unfold resolveIncludes selectBranch isDefined flagValue
  simp [h1, h2, branchIncludes, packagedIncludes]

/-- Witness for C5 at the environment defining neither flag. -/
theorem default_layout_exact_witness :
    resolveIncludes envPlain =
      ["collectd/liboconfig/oconfig.h", "collectd/core/daemon/plugin.h",
       "collectd/core/daemon/utils_cache.h"] :=
  default_layout_exact envPlain (by decide) (by decide)

/-- C6: when `COLLECTD_54` is nonzero and `COLLECTD_PATH` is not defined,
the version-54 branch is selected and every resolved include path is
rooted at `collectd/core/`. -/
theorem version54_layout (env : FlagEnv)
    (h1 : isDefined env ("COLLECTD_PATH") = false)
    (h2 : flagValue env ("COLLECTD_54") ≠ 0) :
    selectBranch env = Branch.version54 ∧
    ∀ p ∈ resolveIncludes env, startsWithStr p ("collectd/core/") = true := by
  have hb : selectBranch env = Branch.version54 := by
    unfold selectBranch
    simp [h1, h2]
  refine ⟨hb, ?_⟩
  unfold resolveIncludes
  rw [hb]
  decide

/-- Witness for C6 at the environment defining `COLLECTD_54` to 54. -/
theorem version54_layout_witness :
    selectBranch (envOf none (some 54)) = Branch.version54 ∧
    ∀ p ∈ resolveIncludes (envOf none (some 54)),
      startsWithStr p ("collectd/core/") = true :=
  version54_layout (envOf none (some 54)) (by decide) (by decide)

/-- C7: the resolver is a total function with no error outcome: for every
flag environment it returns one of the three fixed include sets, never a
failure and never anything else. -/
theorem resolver_total (env : FlagEnv) :
    resolveIncludes env = localIncludes ∨ resolveIncludes env = v54Includes ∨
      resolveIncludes env = packagedIncludes := by
  unfold resolveIncludes
  cases selectBranch env <;> simp [branchIncludes]

/-- C8: resolution is deterministic and depends only on the definedness of
`COLLECTD_PATH` and the arithmetic value of `COLLECTD_54`: two environments
agreeing on those two observations resolve to identical include sets,
whatever else they define. -/
theorem resolution_deterministic (e1 e2 : FlagEnv)
    (hp : (e1 ("COLLECTD_PATH")).isSome = (e2 ("COLLECTD_PATH")).isSome)
    (hv : (e1 ("COLLECTD_54")).getD 0 = (e2 ("COLLECTD_54")).getD 0) :
    resolveIncludes e1 = resolveIncludes e2 := by
  unfold resolveIncludes selectBranch isDefined flagValue
  rw [hp, hv]

/-- Witness for C8: an environment defining an unrelated flag resolves the
same as the plain environment. -/
theorem resolution_deterministic_witness :
    resolveIncludes envPlain = resolveIncludes envWithOther :=
  resolution_deterministic envPlain envWithOther (by decide) (by decide)

/-- C9: the two flags are tested asymmetrically: `COLLECTD_PATH` is tested
only for definedness, so any defined value — including 0 — selects the
local-path branch, whereas `COLLECTD_54` is tested for a nonzero value, so
defining it to 0 selects the default packaged branch while defining it to 1
selects the version-54 branch. -/
theorem flag_test_asymmetry :
    (∀ v : Nat, selectBranch (envOf (some v) none) = Branch.localPath) ∧
    selectBranch (envOf none (some 0)) = Branch.packaged ∧
    selectBranch (envOf none (some 1)) = Branch.version54 := by
  refine ⟨fun v => ?_, by decide, by decide⟩
  simp [selectBranch, isDefined, envOf]

/-- C10: every branch's include set contains a plugin-registration header
(a path ending in `plugin.h`) and a metrics-cache header (a path ending in
`utils_cache.h`). -/
theorem every_branch_has_plugin_and_cache (b : Branch) :
    ((branchIncludes b).any fun p => endsWithStr p ("plugin.h")) = true ∧
    ((branchIncludes b).any fun p => endsWithStr p ("utils_cache.h")) = true := by
  cases b <;> decide
